import Mathlib

/-!
Verification of the donation-audit assistant (`app.py`).

The Python program is request/response glue: it reads prompt assets from
disk, builds a multimodal request from a prompt string and an image,
calls a remote model, extracts the answer text, and exports a Word
document.  The shallow embedding below models:

* the filesystem as a partial map `String → Option String` (a path maps
  to its decoded UTF-8 content when it can be opened and read, `none`
  when opening fails for any reason);
* a decoded bitmap (`PIL.Image.Image`) as an `Img` record of dimensions
  and raw pixel bytes; the external PNG codec (`image.save(format="PNG")`
  and its inverse) is modelled as a lossless serialization
  `png_encode` / `png_decode`, matching PNG's losslessness for the pixel
  modes the app uses;
* `base64.b64encode` faithfully, as RFC 4648 base64 over byte lists;
* the remote client as an optional function from requests to
  `Except String Response` (an `Except.error` is a raised exception);
* the Streamlit session state and one render pass of the script as an
  explicit state-transition function.
-/

namespace IrcDaa

/-! ## Asset loader (`_read_texts`, app.py lines 40-49) -/

/-- Filesystem model: `fs p = some c` when path `p` can be opened and read,
yielding decoded text `c` (UTF-8, undecodable bytes ignored); `fs p = none`
when opening raises for any reason. -/
def FileSystem : Type := String → Option String

/-- The loop body of `_read_texts`: for each path, try to open and read it,
appending the content to `parts` on success and silently skipping the path
on any exception. -/
def read_texts_parts (fs : FileSystem) : List String → List String
  | [] => []
  | p :: rest =>
    match fs p with
    | some c => c :: read_texts_parts fs rest
    | none => read_texts_parts fs rest

/-- Embedding of `_read_texts`: read every readable file among `paths` and
join the contents with a newline (the final `"\n".join(parts)`). -/
def read_texts (fs : FileSystem) (paths : List String) : String :=
  String.intercalate "\n" (read_texts_parts fs paths)

def PROMPT_PATH : String := "./assets/system_prompt.txt"
def DOC1_PATH : String := "./assets/Goodwill-Donation-Value-Guide.txt"
def DOC2_PATH : String := "./assets/Salvation-Army-Donation-Value-Guide.txt"

/-! ## Images and the PNG codec model -/

/-- A decoded bitmap (`PIL.Image.Image`): dimensions plus raw pixel bytes. -/
structure Img where
  width : Nat
  height : Nat
  pixels : List (Fin 256)
  deriving DecidableEq, Repr

/-- Big-endian 4-byte serialization of a natural number (losslessly below
`2^32`). -/
def encodeNat32 (n : Nat) : List Nat :=
  [n / 2 ^ 24 % 256, n / 2 ^ 16 % 256, n / 2 ^ 8 % 256, n % 256]

/-- Model of the external PNG encoder (`image.save(buf, format="PNG")`):
a lossless serialization of the image — magic bytes, the two dimensions,
then the raw pixel bytes.  PNG is lossless for the pixel modes the app
feeds it, which is all the round-trip claim relies on. -/
def png_encode (i : Img) : List Nat :=
  137 :: 80 :: 78 :: 71 :: (encodeNat32 i.width ++ encodeNat32 i.height ++ i.pixels.map Fin.val)

def toByte (n : Nat) : Option (Fin 256) :=
  if h : n < 256 then some ⟨n, h⟩ else none

def decodeByteList : List Nat → Option (List (Fin 256))
  | [] => some []
  | n :: rest =>
    match toByte n, decodeByteList rest with
    | some b, some bs => some (b :: bs)
    | _, _ => none

/-- Model of the external PNG decoder, inverse of `png_encode`. -/
def png_decode : List Nat → Option Img
  | 137 :: 80 :: 78 :: 71 :: w1 :: w2 :: w3 :: w4 :: h1 :: h2 :: h3 :: h4 :: rest =>
    match decodeByteList rest with
    | some px =>
      some ⟨w1 * 2 ^ 24 + w2 * 2 ^ 16 + w3 * 2 ^ 8 + w4,
            h1 * 2 ^ 24 + h2 * 2 ^ 16 + h3 * 2 ^ 8 + h4, px⟩
    | none => none
  | _ => none

/-! ## Base64 (`base64.b64encode`, RFC 4648) -/

def b64Alphabet : String :=
  "ABCDEFGHIJKLMNOPQRSTUVWXYZabcdefghijklmnopqrstuvwxyz0123456789+/"

/-- The base64 digit for a 6-bit value. -/
def b64Char (n : Nat) : Char := b64Alphabet.data.getD n '='

/-- The 6-bit value of a base64 digit. -/
def b64Val (c : Char) : Nat := b64Alphabet.data.indexOf c

/-- RFC 4648 base64 encoding of a byte list, 3 bytes to 4 digits with `=`
padding — the behaviour of `base64.b64encode(...).decode("utf-8")`. -/
def b64EncodeChunks : List Nat → List Char
  | [] => []
  | [a] => [b64Char (a / 4), b64Char (a % 4 * 16), '=', '=']
  | [a, b] => [b64Char (a / 4), b64Char (a % 4 * 16 + b / 16), b64Char (b % 16 * 4), '=']
  | a :: b :: c :: rest =>
    b64Char (a / 4) :: b64Char (a % 4 * 16 + b / 16) :: b64Char (b % 16 * 4 + c / 64) ::
      b64Char (c % 64) :: b64EncodeChunks rest

/-- Base64 decoding, inverse of `b64EncodeChunks` on its image. -/
def b64DecodeChunks : List Char → List Nat
  | c1 :: c2 :: c3 :: c4 :: rest =>
    if c3 = '=' then [b64Val c1 * 4 + b64Val c2 / 16]
    else if c4 = '=' then
      [b64Val c1 * 4 + b64Val c2 / 16, b64Val c2 % 16 * 16 + b64Val c3 / 4]
    else
      (b64Val c1 * 4 + b64Val c2 / 16) :: (b64Val c2 % 16 * 16 + b64Val c3 / 4) ::
        (b64Val c3 % 4 * 64 + b64Val c4) :: b64DecodeChunks rest
  | _ => []

theorem b64Val_b64Char (n : Nat) (h : n < 64) : b64Val (b64Char n) = n := by
  interval_cases n <;> rfl

theorem b64Char_ne_pad (n : Nat) (h : n < 64) : b64Char n ≠ '=' := by
  interval_cases n <;> decide

/-- Base64 decoding undoes base64 encoding on byte lists. -/
theorem b64_round : ∀ bytes : List Nat, (∀ b ∈ bytes, b < 256) →
    b64DecodeChunks (b64EncodeChunks bytes) = bytes
  | [], _ => rfl
  | [a], h => by
    have ha : a < 256 := h a (by simp)
    simp only [b64EncodeChunks, b64DecodeChunks, if_true]
    rw [b64Val_b64Char _ (by omega), b64Val_b64Char _ (by omega)]
    simp only [List.cons.injEq, and_true]
    omega
  | [a, b], h => by
    have ha : a < 256 := h a (by simp)
    have hb : b < 256 := h b (by simp)
    simp only [b64EncodeChunks, b64DecodeChunks, if_true]
    rw [if_neg (b64Char_ne_pad _ (by omega))]
    rw [b64Val_b64Char _ (by omega), b64Val_b64Char _ (by omega),
      b64Val_b64Char _ (by omega)]
    simp only [List.cons.injEq, and_true]
    omega
  | a :: b :: c :: rest, h => by
    have ha : a < 256 := h a (by simp)
    have hb : b < 256 := h b (by simp)
    have hc : c < 256 := h c (by simp)
    have ih := b64_round rest (fun x hx => h x (by simp [hx]))
    simp only [b64EncodeChunks, b64DecodeChunks]
    rw [if_neg (b64Char_ne_pad _ (by omega)), if_neg (b64Char_ne_pad _ (by omega))]
    rw [b64Val_b64Char _ (by omega), b64Val_b64Char _ (by omega),
      b64Val_b64Char _ (by omega), b64Val_b64Char _ (by omega)]
    simp only [List.cons.injEq]
    refine ⟨by omega, by omega, by omega, ih⟩

theorem decodeByteList_map_val (px : List (Fin 256)) :
    decodeByteList (px.map Fin.val) = some px := by
  induction px with
  | nil => rfl
  | cons b bs ih => simp [decodeByteList, toByte, b.is_lt, ih]

/-- The PNG codec model is lossless: decoding an encoded image recovers the
image, dimensions and pixels alike, whenever the dimensions fit in 32 bits. -/
theorem png_round (i : Img) (hw : i.width < 2 ^ 32) (hh : i.height < 2 ^ 32) :
    png_decode (png_encode i) = some i := by
  obtain ⟨w, h, px⟩ := i
  dsimp only at hw hh
  simp only [png_encode, encodeNat32, List.cons_append, List.nil_append]
  simp only [png_decode, decodeByteList_map_val]
  simp only [Option.some.injEq, Img.mk.injEq]
  refine ⟨by omega, by omega, trivial⟩

/-- Every byte produced by the PNG encoder model is below 256. -/
theorem png_encode_lt (i : Img) : ∀ b ∈ png_encode i, b < 256 := by
  intro b hb
  simp only [png_encode, encodeNat32, List.cons_append, List.nil_append,
    List.mem_cons, List.mem_map] at hb
  rcases hb with rfl | rfl | rfl | rfl | rfl | rfl | rfl | rfl | rfl | rfl | rfl | rfl | ⟨x, _, rfl⟩
  all_goals omega

/-! ## Multimodal content builder (`_to_mm_content`, app.py lines 51-71) -/

/-- The `image` argument of `_to_mm_content`: either a decoded bitmap
(`PIL.Image.Image`) or a string. -/
inductive ImageArg where
  | pil (img : Img)
  | str (s : String)
  deriving DecidableEq, Repr

/-- A content part of the Responses API payload: either
`{"type": "input_text", "text": ...}` or
`{"type": "input_image", "image_url": ...}`. -/
inductive ContentPart where
  | input_text (text : String)
  | input_image (image_url : String)
  deriving DecidableEq, Repr

/-- Python's `str.startswith`: character-list prefix test. -/
def pystartswith (s pre : String) : Bool := pre.data.isPrefixOf s.data

/-- The data URL built from PNG bytes:
`f"data:image/png;base64,{base64.b64encode(bytes).decode('utf-8')}"`. -/
def dataUrl (bytes : List Nat) : String :=
  "data:image/png;base64," ++ String.mk (b64EncodeChunks bytes)

/-- The behaviour of the external PNG encoder inside `_to_mm_content`:
`image.save(buf, format="PNG")` yields the buffer's bytes on success and
`none` when it raises (the `except` branch). -/
def PngEncoder : Type := Img → Option (List Nat)

/-- Embedding of `_to_mm_content`: start from an empty list, append a text
part when `text` is truthy (non-`None`, non-empty), then append an image
part when the image is a string starting with `"data:image"` (passed
through) or a bitmap whose PNG serialization succeeds (base64 data URL);
a failing serialization is swallowed and appends nothing. -/
def to_mm_content (enc : PngEncoder) (text : Option String) (image : Option ImageArg) :
    List ContentPart :=
  let content : List ContentPart := []
  let content := match text with
    | some t => if t = "" then content else content ++ [ContentPart.input_text t]
    | none => content
  match image with
  | some (ImageArg.str s) =>
    if pystartswith s "data:image" then content ++ [ContentPart.input_image s] else content
  | some (ImageArg.pil img) =>
    match enc img with
    | some bytes => content ++ [ContentPart.input_image (dataUrl bytes)]
    | none => content
  | none => content

/-! ## Response extraction and `_process` (app.py lines 87-107) -/

/-- One entry of an output item's `content` list. -/
structure ContentEntry where
  text : String
  deriving DecidableEq, Repr

/-- One item of a response's `output` list. -/
structure OutputItem where
  content : List ContentEntry
  deriving DecidableEq, Repr

/-- The response object of the remote call: the convenience `output_text`
attribute (`none` when the attribute is missing), the `output` list, and
`str_repr` for the raw rendering `str(response)`. -/
structure Response where
  output_text : Option String
  output : List OutputItem
  str_repr : String
  deriving DecidableEq, Repr

/-- The navigation `response.output[0].content[0].text`; `none` models the
exception swallowed by the surrounding `try`. -/
def navigateOutput (r : Response) : Option String :=
  match r.output with
  | [] => none
  | item :: _ =>
    match item.content with
    | [] => none
    | entry :: _ => some entry.text

/-- Embedding of the extraction at the end of `_process`:
`text = getattr(response, "output_text", None)`; `if not text:` (missing or
empty) try the navigation, and on its failure fall back to `str(response)`. -/
def extract_text (r : Response) : String :=
  match r.output_text with
  | some t =>
    if t = "" then
      match navigateOutput r with
      | some t2 => t2
      | none => r.str_repr
    else t
  | none =>
    match navigateOutput r with
    | some t2 => t2
    | none => r.str_repr

/-- The `input` argument of `client.responses.create`: either the structured
single-turn list `[{"role": "user", "content": content}]` or the raw prompt
string. -/
inductive ApiInput where
  | structured (role : String) (content : List ContentPart)
  | raw (s : String)
  deriving DecidableEq, Repr

/-- The request sent by `_process` (model id, reasoning effort, verbosity,
tool list, input). -/
structure Request where
  model : String
  reasoning_effort : String
  text_verbosity : String
  tools : List String
  input : ApiInput
  deriving DecidableEq, Repr

/-- The remote client behaviour: `client.responses.create` either returns a
response or raises (`Except.error`, carrying `str(e)`). -/
def ClientBehavior : Type := Request → Except String Response

/-- The request built by `_process`: fixed parameters, and structured input
exactly when the content list is non-empty. -/
def mkRequest (content : List ContentPart) (prompt_text : String) : Request :=
  ⟨"gpt-5", "low", "low", ["web_search"],
    if content.isEmpty then ApiInput.raw prompt_text
    else ApiInput.structured "user" content⟩

def notConfiguredMsg : String := "OpenAI client not configured (missing API key)."

/-- Embedding of `_process`: with no configured client return the fixed
degraded-mode message; otherwise build the content list, call the client,
and extract the text.  An `Except.error` is an exception propagating out of
the call (to be caught by the action handler). -/
def process (client : Option ClientBehavior) (enc : PngEncoder)
    (prompt_text : String) (image : Option ImageArg) : Except String String :=
  match client with
  | none => Except.ok notConfiguredMsg
  | some call =>
    let content := to_mm_content enc (some prompt_text) image
    match call (mkRequest content prompt_text) with
    | Except.error e => Except.error e
    | Except.ok response => Except.ok (extract_text response)

/-! ## Document export (`_docx_bytes_from_text`, app.py lines 109-140) -/

/-- A character ending a line for Python's `str.splitlines` (universal
newlines). -/
def isLineBoundary (c : Char) : Bool :=
  c = '\n' || c = '\r' || c = '\x0b' || c = '\x0c' ||
  c = '\x1c' || c = '\x1d' || c = '\x1e' || c = '\x85' ||
  c = '\u2028' || c = '\u2029'

/-- Worker for `pysplitlines`: `acc` holds the current line reversed. -/
def splitlinesGo : List Char → List Char → List String
  | [], acc => if acc.isEmpty then [] else [String.mk acc.reverse]
  | '\r' :: '\n' :: rest, acc => String.mk acc.reverse :: splitlinesGo rest []
  | c :: rest, acc =>
    if isLineBoundary c then String.mk acc.reverse :: splitlinesGo rest []
    else splitlinesGo rest (c :: acc)

/-- Python's `str.splitlines()`: split at universal line boundaries, with
`"\r\n"` counting as one boundary; a trailing boundary does not produce a
final empty line, and the empty string has no lines. -/
def pysplitlines (s : String) : List String :=
  splitlinesGo s.data []

/-- A block-level element of the generated document. -/
inductive Block where
  | heading (text : String) (level : Nat)
  | picture (image : Img) (width : Int)
  | para (text : String)
  deriving DecidableEq, Repr

def isPictureBlock : Block → Bool
  | Block.picture _ _ => true
  | _ => false

/-- The page geometry of `doc.sections[0]` (EMU values, as python-docx
`Length` ints). -/
structure PageSection where
  page_width : Int
  left_margin : Int
  right_margin : Int
  deriving DecidableEq, Repr

/-- The default section of a fresh python-docx `Document()`: US Letter
(8.5 inch page width) with one-inch margins, in EMU. -/
def defaultSection : PageSection := ⟨7772400, 914400, 914400⟩

/-- Embedding of the body of `_docx_bytes_from_text`: a heading when the
title is truthy; when an image is present, the image at width
`page_width - left_margin - right_margin` followed by a spacer paragraph;
then one paragraph per `splitlines()` line of the text. -/
def docx_blocks (sect : PageSection) (text : String) (image : Option Img)
    (title : String) : List Block :=
  let doc : List Block := []
  let doc := if title = "" then doc else doc ++ [Block.heading title 0]
  let doc := match image with
    | some img =>
      let max_width := sect.page_width - sect.left_margin - sect.right_margin
      doc ++ [Block.picture img max_width, Block.para ""]
    | none => doc
  doc ++ (pysplitlines text).map Block.para

def serializeBlock : Block → List Nat
  | Block.heading t l => 1 :: l :: t.data.map Char.toNat
  | Block.picture img w => 2 :: w.toNat :: png_encode img
  | Block.para t => 3 :: t.data.map Char.toNat

/-- Model of the external docx writer (`doc.save(out)`): a concrete
serialization that begins with the ZIP local-file-header magic bytes every
real `.docx` package starts with, followed by the serialized blocks. -/
def docx_save (blocks : List Block) : List Nat :=
  80 :: 75 :: 3 :: 4 :: (blocks.map serializeBlock).flatten

/-- Embedding of `_docx_bytes_from_text`: build the block list and
serialize it to bytes. -/
def docx_bytes_from_text (sect : PageSection) (text : String) (image : Option Img)
    (title : String) : List Nat :=
  docx_save (docx_blocks sect text image title)

/-! ## Session state and one render pass (app.py lines 30-35 and 145-206) -/

/-- The three session-state slots, all initialized to `None`. -/
structure SessState where
  last_output : Option String
  docx_bytes : Option (List Nat)
  docx_filename : Option String
  deriving DecidableEq, Repr

def initState : SessState := ⟨none, none, none⟩

/-- An `UploadedFile` handle from `st.camera_input` / `st.file_uploader`,
abstracted by what `_load_pil_from_uploaded` can get out of it: `direct` is
the orientation-corrected result of `Image.open(uploaded)` (`none` when
that raises), `viaBytes` the orientation-corrected result of decoding
`uploaded.getvalue()` (`none` when that raises too). -/
structure UploadedFile where
  direct : Option Img
  viaBytes : Option Img
  deriving DecidableEq, Repr

/-- Embedding of `_load_pil_from_uploaded`: `None` input gives no image;
otherwise try the direct decode, then the raw-bytes decode, and yield no
image when both fail. -/
def load_pil_from_uploaded : Option UploadedFile → Option Img
  | none => none
  | some u =>
    match u.direct with
    | some img => some img
    | none => u.viaBytes

/-- The per-render user inputs: the camera widget value, the uploader
widget value, whether the user clicked the button this pass (before the
framework's disabled-gating), and the timestamp string
`datetime.now().strftime("%Y%m%d-%H%M%S")`. -/
structure RenderInput where
  cam : Option UploadedFile
  upl : Option UploadedFile
  clickRaw : Bool
  now : String
  deriving DecidableEq, Repr

/-- The observables of one render pass: the session state afterwards,
whether the Process button was rendered disabled, whether a remote API
call happened, what the output area showed (`none` when not rewritten this
pass), and whether the download button was rendered. -/
structure RenderResult where
  state : SessState
  buttonDisabled : Bool
  remoteCalled : Bool
  shown : Option String
  downloadShown : Bool
  deriving DecidableEq, Repr

/-- Python truthiness of an optional string (`None` and `""` are falsy). -/
def truthyString : Option String → Bool
  | none => false
  | some t => !(t == "")

/-- Python truthiness of optional bytes (`None` and `b""` are falsy). -/
def truthyBytes : Option (List Nat) → Bool
  | none => false
  | some b => !b.isEmpty

/-- The download-button condition at app.py line 198:
`if st.session_state.docx_bytes and st.session_state.last_output`. -/
def downloadVisible (s : SessState) : Bool :=
  truthyBytes s.docx_bytes && truthyString s.last_output

/-- Embedding of one render pass of the script body (lines 145-206):
acquire the image (`cam or upl`), render the button disabled exactly when
no image decoded (a disabled Streamlit button cannot fire, so the click is
gated), and on a click assemble the prompt, call `_process` inside the
`try/except` that turns an exception into the prefixed error string,
display the output, store text, docx bytes and filename in session state,
and finally show the download button iff both stored values are truthy. -/
def renderPass (client : Option ClientBehavior) (fs : FileSystem) (enc : PngEncoder)
    (s : SessState) (inp : RenderInput) : RenderResult :=
  let uploaded := inp.cam <|> inp.upl
  let image_pil := load_pil_from_uploaded uploaded
  let disabled := image_pil.isNone
  let process_clicked := inp.clickRaw && !disabled
  if process_clicked then
    let system_prompt := read_texts fs [PROMPT_PATH]
    let guides_text := read_texts fs [DOC1_PATH, DOC2_PATH]
    let prompt := system_prompt ++ "\n" ++ guides_text
    let out_text := match process client enc prompt (image_pil.map ImageArg.pil) with
      | Except.ok t => t
      | Except.error e => "Error calling OpenAI: " ++ e
    let shown := if out_text = "" then "_No output._" else out_text
    let newState : SessState :=
      ⟨some out_text,
       some (docx_bytes_from_text defaultSection (if out_text = "" then "" else out_text)
         image_pil "Donation Audit"),
       some ("GW-IRC-Donation-Value-Audit--" ++ inp.now ++ ".docx")⟩
    ⟨newState, disabled, client.isSome, some shown, downloadVisible newState⟩
  else
    ⟨s, disabled, false, none, downloadVisible s⟩

/-- A whole session: fold successive render passes over the initial
session state. -/
def runSession (client : Option ClientBehavior) (fs : FileSystem) (enc : PngEncoder) :
    List RenderInput → SessState → SessState
  | [], s => s
  | inp :: rest, s => runSession client fs enc rest (renderPass client fs enc s inp).state

/-- Whether a render input fires the action: the user clicked and an image
decoded (a disabled button cannot be clicked). -/
def actionTaken (inp : RenderInput) : Bool :=
  inp.clickRaw && (load_pil_from_uploaded (inp.cam <|> inp.upl)).isSome

/-! ## Shared helper lemmas and example values -/

theorem read_texts_parts_eq_filterMap (fs : FileSystem) (paths : List String) :
    read_texts_parts fs paths = paths.filterMap fs := by
  induction paths with
  | nil => rfl
  | cons p rest ih =>
    cases h : fs p <;> simp [read_texts_parts, List.filterMap_cons, h, ih]

theorem errString_ne_empty (e : String) : ("Error calling OpenAI: " ++ e) ≠ "" := by
  intro h
  have h2 := congrArg String.length h
  rw [String.length_append] at h2
  have h3 : ("Error calling OpenAI: " : String).length = 22 := rfl
  have h4 : ("" : String).length = 0 := rfl
  omega

/-- A one-pixel example image used by concrete witnesses. -/
def img1 : Img := ⟨1, 1, [0]⟩

/-! ## Claim C1: asset loader -/

/-- C1: for every list of file paths, `_read_texts` never raises and returns
the newline-join, in list order, of the contents of exactly those files that
could be opened and read (every unreadable path skipped); when no file is
readable it returns the empty string.  Totality of `read_texts` is the
no-raise guarantee. -/
theorem C1_read_texts_join (fs : FileSystem) (paths : List String) :
    read_texts fs paths = String.intercalate "\n" (paths.filterMap fs) ∧
    ((∀ p ∈ paths, fs p = none) → read_texts fs paths = "") := by
  have hparts := read_texts_parts_eq_filterMap fs paths
  constructor
  · rw [read_texts, hparts]
  · intro h
    rw [read_texts, hparts, List.filterMap_eq_nil_iff.mpr h]
    rfl

/-- Witness for C1: with no readable file at all, the loader yields `""`. -/
theorem C1_witness :
    read_texts (fun _ => none) [PROMPT_PATH, DOC1_PATH] = "" :=
  (C1_read_texts_join (fun _ => none) [PROMPT_PATH, DOC1_PATH]).2 (fun _ _ => rfl)

/-! ## Claim C2: degraded mode without a client -/

/-- C2: for every prompt text and every image argument, `_process` with no
configured client returns the fixed human-readable message and never raises
(the result is always `Except.ok`). -/
theorem C2_no_client_fixed_message (enc : PngEncoder) (prompt_text : String)
    (image : Option ImageArg) :
    process none enc prompt_text image =
      Except.ok "OpenAI client not configured (missing API key)." := rfl

/-! ## Claim C3: multimodal content builder -/

/-- C3: `_to_mm_content` returns an ordered list with a text part first iff
the text is non-empty (an empty text behaves exactly like an absent one),
followed by an image part: a bitmap is serialized to PNG, base64-encoded
and wrapped as a `data:image/png;base64` URL; a data-URL string passes
through unchanged; and a failing bitmap serialization is swallowed, the
image part simply omitted with no exception. -/
theorem C3_to_mm_content_shape (enc : PngEncoder) :
    (∀ image, to_mm_content enc (some "") image = to_mm_content enc none image) ∧
    (∀ t img bytes, t ≠ "" → enc img = some bytes →
      to_mm_content enc (some t) (some (ImageArg.pil img)) =
        [ContentPart.input_text t, ContentPart.input_image (dataUrl bytes)]) ∧
    (∀ t img, t ≠ "" → enc img = none →
      to_mm_content enc (some t) (some (ImageArg.pil img)) = [ContentPart.input_text t]) ∧
    (∀ t s, t ≠ "" → pystartswith s "data:image" = true →
      to_mm_content enc (some t) (some (ImageArg.str s)) =
        [ContentPart.input_text t, ContentPart.input_image s]) ∧
    (∀ t, t ≠ "" → to_mm_content enc (some t) none = [ContentPart.input_text t]) ∧
    (∀ img bytes, enc img = some bytes →
      to_mm_content enc none (some (ImageArg.pil img)) =
        [ContentPart.input_image (dataUrl bytes)]) ∧
    (∀ img, enc img = none → to_mm_content enc none (some (ImageArg.pil img)) = []) ∧
    (∀ s, pystartswith s "data:image" = true →
      to_mm_content enc none (some (ImageArg.str s)) = [ContentPart.input_image s]) ∧
    to_mm_content enc none none = [] := by
  refine ⟨?_, ?_, ?_, ?_, ?_, ?_, ?_, ?_, rfl⟩
  · intro image
    cases image with
    | none => rfl
    | some a => cases a <;> simp [to_mm_content]
  · intro t img bytes ht henc
    simp [to_mm_content, ht, henc]
  · intro t img ht henc
    simp [to_mm_content, ht, henc]
  · intro t s ht hs
    simp [to_mm_content, ht, hs]
  · intro t ht
    simp [to_mm_content, ht]
  · intro img bytes henc
    simp [to_mm_content, henc]
  · intro img henc
    simp [to_mm_content, henc]
  · intro s hs
    simp [to_mm_content, hs]

/-- Witness for C3 at a concrete text, bitmap, encoder and data-URL string. -/
theorem C3_witness :
    to_mm_content (fun i => some (png_encode i)) (some "hello")
      (some (ImageArg.pil img1)) =
      [ContentPart.input_text "hello", ContentPart.input_image (dataUrl (png_encode img1))] ∧
    to_mm_content (fun _ => none) (some "hello") (some (ImageArg.pil img1)) =
      [ContentPart.input_text "hello"] ∧
    to_mm_content (fun _ => none) (some "hello") (some (ImageArg.str "data:image/png;base64,x")) =
      [ContentPart.input_text "hello", ContentPart.input_image "data:image/png;base64,x"] :=
  ⟨(C3_to_mm_content_shape (fun i => some (png_encode i))).2.1 "hello" img1
      (png_encode img1) (by decide) rfl,
    (C3_to_mm_content_shape (fun _ => none)).2.2.1 "hello" img1 (by decide) rfl,
    (C3_to_mm_content_shape (fun _ => none)).2.2.2.1 "hello" "data:image/png;base64,x"
      (by decide) (by decide)⟩

/-! ## Claim C10: non-data-URL strings are dropped -/

/-- C10: a string image that does not start with `"data:image"` contributes
no image part at all — the result equals the one for an absent image, and
contains no image part whatever the text is. -/
theorem C10_non_data_url_dropped (enc : PngEncoder) (text : Option String) (s : String)
    (h : pystartswith s "data:image" = false) :
    to_mm_content enc text (some (ImageArg.str s)) = to_mm_content enc text none ∧
    ∀ u, ContentPart.input_image u ∉ to_mm_content enc text (some (ImageArg.str s)) := by
  constructor
  · simp [to_mm_content, h]
  · intro u hu
    rcases text with _ | t
    · simp [to_mm_content, h] at hu
    · by_cases ht : t = "" <;> simp [to_mm_content, h, ht] at hu

/-- Witness for C10 at a plain http URL string. -/
theorem C10_witness :
    to_mm_content (fun _ => none) (some "hello") (some (ImageArg.str "http://x.png")) =
      to_mm_content (fun _ => none) (some "hello") none ∧
    ∀ u, ContentPart.input_image u ∉
      to_mm_content (fun _ => none) (some "hello") (some (ImageArg.str "http://x.png")) :=
  C10_non_data_url_dropped (fun _ => none) (some "hello") "http://x.png" (by decide)

/-! ## Claim C4: response text extraction -/

/-- A response whose convenience field is present but empty, while the
navigation path holds text. -/
def respEmptyConvenience : Response := ⟨some "", [⟨[⟨"fallback text"⟩]⟩], "raw repr"⟩

/-- C4 counterexample: `output_text` is present (equal to `""`), yet
`_process` does not return it — `if not text:` treats a present-but-empty
field as absent and the navigation result is returned instead. -/
theorem C4_counterexample_present_empty :
    respEmptyConvenience.output_text = some "" ∧
    extract_text respEmptyConvenience = "fallback text" ∧
    ("fallback text" : String) ≠ "" :=
  ⟨rfl, rfl, by decide⟩

/-- C4 amended: the extraction returns `output_text` when present and
non-empty; when it is absent or empty it attempts the navigation
`output[0].content[0].text`; and only when that also fails does it return
the raw string rendering of the response. -/
theorem C4_extraction_amended :
    (∀ r t, r.output_text = some t → t ≠ "" → extract_text r = t) ∧
    (∀ r t2, (r.output_text = none ∨ r.output_text = some "") →
      navigateOutput r = some t2 → extract_text r = t2) ∧
    (∀ r, (r.output_text = none ∨ r.output_text = some "") →
      navigateOutput r = none → extract_text r = r.str_repr) := by
  refine ⟨?_, ?_, ?_⟩
  · intro r t hr ht
    simp [extract_text, hr, ht]
  · intro r t2 hr hnav
    rcases hr with hr | hr <;> simp [extract_text, hr, hnav]
  · intro r hr hnav
    rcases hr with hr | hr <;> simp [extract_text, hr, hnav]

/-- Witness for C4's amended statement at three concrete responses. -/
theorem C4_witness :
    extract_text ⟨some "hello", [], "x"⟩ = "hello" ∧
    extract_text ⟨none, [⟨[⟨"nav"⟩]⟩], "x"⟩ = "nav" ∧
    extract_text ⟨some "", [], "x"⟩ = "x" :=
  ⟨C4_extraction_amended.1 ⟨some "hello", [], "x"⟩ "hello" rfl (by decide),
    C4_extraction_amended.2.1 ⟨none, [⟨[⟨"nav"⟩]⟩], "x"⟩ "nav" (Or.inl rfl) rfl,
    C4_extraction_amended.2.2 ⟨some "", [], "x"⟩ (Or.inr rfl) rfl⟩

/-! ## Claim C5: data-URL round trip -/

/-- C5: for every bitmap image (with physically meaningful 32-bit
dimensions), the image part `_to_mm_content` builds is exactly the fixed
data-URL head followed by a base64 payload, and base64-decoding that
payload yields PNG bytes that decode back to a pixel-identical copy of the
original image. -/
theorem C5_data_url_roundtrip (img : Img) (hw : img.width < 2 ^ 32)
    (hh : img.height < 2 ^ 32) :
    ∃ payload : List Char,
      to_mm_content (fun i => some (png_encode i)) none (some (ImageArg.pil img)) =
        [ContentPart.input_image ("data:image/png;base64," ++ String.mk payload)] ∧
      png_decode (b64DecodeChunks payload) = some img := by
  refine ⟨b64EncodeChunks (png_encode img), rfl, ?_⟩
  rw [b64_round _ (png_encode_lt img), png_round img hw hh]

/-- Witness for C5 at the one-pixel example image. -/
theorem C5_witness :
    ∃ payload : List Char,
      to_mm_content (fun i => some (png_encode i)) none (some (ImageArg.pil img1)) =
        [ContentPart.input_image ("data:image/png;base64," ++ String.mk payload)] ∧
      png_decode (b64DecodeChunks payload) = some img1 :=
  C5_data_url_roundtrip img1 (by decide) (by decide)

/-! ## Claim C6: document structure -/

theorem map_para_filter_no_picture (l : List String) :
    (l.map Block.para).filter isPictureBlock = [] := by
  induction l with
  | nil => rfl
  | cons a as ih => simp [isPictureBlock, ih]

/-- C6: with non-empty text and a present image, the exported bytes are
non-empty and the document is, in order: the level-0 heading with the fixed
title, exactly one image scaled to the printable width (page width minus
both margins), a spacer paragraph, then one body paragraph per
`splitlines()` line of the text, blank lines preserved — so the body
paragraph count equals the line count. -/
theorem C6_docx_structure (sect : PageSection) (text : String) (img : Img)
    (h : text ≠ "") :
    docx_bytes_from_text sect text (some img) "Donation Audit" ≠ [] ∧
    docx_blocks sect text (some img) "Donation Audit" =
      Block.heading "Donation Audit" 0 ::
        Block.picture img (sect.page_width - sect.left_margin - sect.right_margin) ::
          Block.para "" :: (pysplitlines text).map Block.para ∧
    (docx_blocks sect text (some img) "Donation Audit").filter isPictureBlock =
      [Block.picture img (sect.page_width - sect.left_margin - sect.right_margin)] ∧
    ((docx_blocks sect text (some img) "Donation Audit").drop 3) =
      (pysplitlines text).map Block.para ∧
    ((docx_blocks sect text (some img) "Donation Audit").drop 3).length =
      (pysplitlines text).length := by
  have hblocks : docx_blocks sect text (some img) "Donation Audit" =
      Block.heading "Donation Audit" 0 ::
        Block.picture img (sect.page_width - sect.left_margin - sect.right_margin) ::
          Block.para "" :: (pysplitlines text).map Block.para := by
    simp [docx_blocks]
  refine ⟨?_, hblocks, ?_, ?_, ?_⟩
  · simp [docx_bytes_from_text, docx_save]
  · rw [hblocks]
    simp [List.filter, isPictureBlock, map_para_filter_no_picture]
  · rw [hblocks]
    rfl
  · rw [hblocks]
    simp

/-- Witness for C6 at a concrete three-line text with a blank middle line. -/
theorem C6_witness :
    docx_bytes_from_text defaultSection "line1\n\nline2" (some img1) "Donation Audit" ≠ [] ∧
    docx_blocks defaultSection "line1\n\nline2" (some img1) "Donation Audit" =
      Block.heading "Donation Audit" 0 ::
        Block.picture img1 (defaultSection.page_width - defaultSection.left_margin -
          defaultSection.right_margin) ::
          Block.para "" :: (pysplitlines "line1\n\nline2").map Block.para ∧
    (docx_blocks defaultSection "line1\n\nline2" (some img1) "Donation Audit").filter
        isPictureBlock =
      [Block.picture img1 (defaultSection.page_width - defaultSection.left_margin -
        defaultSection.right_margin)] ∧
    ((docx_blocks defaultSection "line1\n\nline2" (some img1) "Donation Audit").drop 3) =
      (pysplitlines "line1\n\nline2").map Block.para ∧
    ((docx_blocks defaultSection "line1\n\nline2" (some img1) "Donation Audit").drop 3).length =
      (pysplitlines "line1\n\nline2").length :=
  C6_docx_structure defaultSection "line1\n\nline2" img1 (by decide)

/-! ## Session-state lemmas shared by C7, C8, C9 -/

/-- The reachability invariant of the session state: either nothing has
been stored yet (both slots `None`) or the text and the (non-empty) bytes
were stored together. -/
def StateInv (s : SessState) : Prop :=
  (s.last_output = none ∧ s.docx_bytes = none) ∨
  (∃ t b, s.last_output = some t ∧ s.docx_bytes = some b ∧ b ≠ [])

theorem docx_bytes_ne_nil (sect : PageSection) (text : String) (image : Option Img)
    (title : String) : docx_bytes_from_text sect text image title ≠ [] := by
  simp [docx_bytes_from_text, docx_save]

theorem renderPass_state_inv (client : Option ClientBehavior) (fs : FileSystem)
    (enc : PngEncoder) (s : SessState) (inp : RenderInput) (h : StateInv s) :
    StateInv (renderPass client fs enc s inp).state := by
  rw [renderPass]
  by_cases hc : (inp.clickRaw && !(load_pil_from_uploaded (inp.cam <|> inp.upl)).isNone) = true
  · simp only [hc, if_true]
    exact Or.inr ⟨_, _, rfl, rfl, docx_bytes_ne_nil _ _ _ _⟩
  · simp only [Bool.not_eq_true] at hc
    simp only [hc, Bool.false_eq_true, if_false]
    exact h

theorem runSession_inv (client : Option ClientBehavior) (fs : FileSystem)
    (enc : PngEncoder) :
    ∀ (inputs : List RenderInput) (s : SessState),
      StateInv s → StateInv (runSession client fs enc inputs s)
  | [], _, h => h
  | inp :: rest, s, h =>
    runSession_inv client fs enc rest _ (renderPass_state_inv client fs enc s inp h)

theorem downloadVisible_iff_of_inv (s : SessState) (h : StateInv s) :
    downloadVisible s = true ↔
      ∃ t b, s.last_output = some t ∧ s.docx_bytes = some b ∧ t ≠ "" ∧ b ≠ [] := by
  rcases h with ⟨h1, h2⟩ | ⟨t, b, h1, h2, hb⟩
  · simp [downloadVisible, truthyBytes, truthyString, h1, h2]
  · cases b with
    | nil => exact absurd rfl hb
    | cons x xs =>
      by_cases ht : t = "" <;>
        simp [downloadVisible, truthyBytes, truthyString, h1, h2, ht]

theorem renderPass_no_action (client : Option ClientBehavior) (fs : FileSystem)
    (enc : PngEncoder) (s : SessState) (inp : RenderInput)
    (h : actionTaken inp = false) :
    (renderPass client fs enc s inp).state = s := by
  have hc : (inp.clickRaw && !(load_pil_from_uploaded (inp.cam <|> inp.upl)).isNone) = false := by
    cases hl : load_pil_from_uploaded (inp.cam <|> inp.upl) <;>
      simp_all [actionTaken, hl]
  rw [renderPass]
  simp only [hc, Bool.false_eq_true, if_false]

theorem runSession_no_action (client : Option ClientBehavior) (fs : FileSystem)
    (enc : PngEncoder) :
    ∀ (inputs : List RenderInput) (s : SessState),
      (∀ inp ∈ inputs, actionTaken inp = false) →
      runSession client fs enc inputs s = s
  | [], _, _ => rfl
  | inp :: rest, s, h => by
    rw [runSession, renderPass_no_action client fs enc s inp (h inp (by simp))]
    exact runSession_no_action client fs enc rest s (fun i hi => h i (by simp [hi]))

/-! ## Claim C7: download visibility invariant -/

/-- C7: in every reachable session state the download control is visible
iff both the stored response text and document bytes are non-empty; the
two slots are always populated together (no render observes one without
the other); it is not visible in the initial state, and never visible in a
session in which no action has fired. -/
theorem C7_download_gating (client : Option ClientBehavior) (fs : FileSystem)
    (enc : PngEncoder) (inputs : List RenderInput) :
    (downloadVisible (runSession client fs enc inputs initState) = true ↔
      ∃ t b, (runSession client fs enc inputs initState).last_output = some t ∧
        (runSession client fs enc inputs initState).docx_bytes = some b ∧
        t ≠ "" ∧ b ≠ []) ∧
    (runSession client fs enc inputs initState).last_output.isSome =
      (runSession client fs enc inputs initState).docx_bytes.isSome ∧
    downloadVisible initState = false ∧
    ((∀ inp ∈ inputs, actionTaken inp = false) →
      downloadVisible (runSession client fs enc inputs initState) = false) := by
  have hinv := runSession_inv client fs enc inputs initState (Or.inl ⟨rfl, rfl⟩)
  refine ⟨downloadVisible_iff_of_inv _ hinv, ?_, rfl, ?_⟩
  · rcases hinv with ⟨h1, h2⟩ | ⟨t, b, h1, h2, _⟩ <;> simp [h1, h2]
  · intro hno
    rw [runSession_no_action client fs enc inputs initState hno]
    rfl

/-- A render input with no click and no image, for the C7 witness. -/
def idleInput : RenderInput := ⟨none, none, false, "20251012-120000"⟩

/-- Witness for C7: a session of one idle render pass never shows the
download control, and its state keeps both slots in step. -/
theorem C7_witness :
    (downloadVisible (runSession none (fun _ => none) (fun _ => none) [idleInput] initState) =
        true ↔
      ∃ t b, (runSession none (fun _ => none) (fun _ => none) [idleInput]
          initState).last_output = some t ∧
        (runSession none (fun _ => none) (fun _ => none) [idleInput]
          initState).docx_bytes = some b ∧ t ≠ "" ∧ b ≠ []) ∧
    downloadVisible (runSession none (fun _ => none) (fun _ => none) [idleInput] initState) =
      false :=
  ⟨(C7_download_gating none (fun _ => none) (fun _ => none) [idleInput]).1,
    (C7_download_gating none (fun _ => none) (fun _ => none) [idleInput]).2.2.2
      (by intro i hi; simp at hi; subst hi; rfl)⟩

/-! ## Claim C8: remote-call failure boundary -/

/-- C8: when the remote call raises, the action handler catches the
exception at the orchestration boundary and shows the string
`"Error calling OpenAI: " ++ e` in place of a normal answer; the pass
completes (the embedding is total, nothing propagates), and the document
export still runs afterward with that error string as the body text. -/
theorem C8_error_boundary (fs : FileSystem) (enc : PngEncoder) (s : SessState)
    (inp : RenderInput) (call : ClientBehavior) (e : String)
    (hcall : ∀ r, call r = Except.error e)
    (himg : (load_pil_from_uploaded (inp.cam <|> inp.upl)).isSome = true)
    (hclick : inp.clickRaw = true) :
    (renderPass (some call) fs enc s inp).shown =
      some ("Error calling OpenAI: " ++ e) ∧
    (renderPass (some call) fs enc s inp).state.last_output =
      some ("Error calling OpenAI: " ++ e) ∧
    (renderPass (some call) fs enc s inp).state.docx_bytes =
      some (docx_bytes_from_text defaultSection ("Error calling OpenAI: " ++ e)
        (load_pil_from_uploaded (inp.cam <|> inp.upl)) "Donation Audit") := by
  obtain ⟨img0, hl⟩ := Option.isSome_iff_exists.mp himg
  have herr := errString_ne_empty e
  rw [renderPass]
  simp only [hl, hclick, Option.isNone_some, Bool.not_false, Bool.and_self, if_true,
    process, hcall, herr, if_neg herr]
  simp

/-- A render input carrying an image and a click, for the C8 and C9
witnesses. -/
def clickInput : RenderInput := ⟨none, some ⟨some img1, none⟩, true, "20251012-120000"⟩

/-- Witness for C8 at a client whose call always raises `"boom"`. -/
theorem C8_witness :
    (renderPass (some fun _ => Except.error "boom") (fun _ => none) (fun _ => none)
        initState clickInput).shown = some ("Error calling OpenAI: " ++ "boom") ∧
    (renderPass (some fun _ => Except.error "boom") (fun _ => none) (fun _ => none)
        initState clickInput).state.last_output =
      some ("Error calling OpenAI: " ++ "boom") ∧
    (renderPass (some fun _ => Except.error "boom") (fun _ => none) (fun _ => none)
        initState clickInput).state.docx_bytes =
      some (docx_bytes_from_text defaultSection ("Error calling OpenAI: " ++ "boom")
        (load_pil_from_uploaded (clickInput.cam <|> clickInput.upl)) "Donation Audit") :=
  C8_error_boundary (fun _ => none) (fun _ => none) initState clickInput
    (fun _ => Except.error "boom") "boom" (fun _ => rfl) (by decide) rfl

/-! ## Claim C9: no image, no call -/

/-- C9: in every render pass in which neither the camera capture nor the
upload decodes to a bitmap, the Process button is disabled, no remote model
call occurs, and the session state does not change — the idle-to-result
transition cannot fire without an image. -/
theorem C9_no_image_no_call (client : Option ClientBehavior) (fs : FileSystem)
    (enc : PngEncoder) (s : SessState) (inp : RenderInput)
    (h : load_pil_from_uploaded (inp.cam <|> inp.upl) = none) :
    (renderPass client fs enc s inp).buttonDisabled = true ∧
    (renderPass client fs enc s inp).remoteCalled = false ∧
    (renderPass client fs enc s inp).state = s := by
  rw [renderPass]
  simp [h]

/-- Witness for C9 at a render input with a click but no decodable image. -/
theorem C9_witness :
    (renderPass none (fun _ => none) (fun _ => none) initState
        ⟨none, some ⟨none, none⟩, true, "20251012-120000"⟩).buttonDisabled = true ∧
    (renderPass none (fun _ => none) (fun _ => none) initState
        ⟨none, some ⟨none, none⟩, true, "20251012-120000"⟩).remoteCalled = false ∧
    (renderPass none (fun _ => none) (fun _ => none) initState
        ⟨none, some ⟨none, none⟩, true, "20251012-120000"⟩).state = initState :=
  C9_no_image_no_call none (fun _ => none) (fun _ => none) initState
    ⟨none, some ⟨none, none⟩, true, "20251012-120000"⟩ rfl

end IrcDaa
